import Mathlib

/-!
Shallow embedding of the MCP control process (`mcp_server.py`) of the
context_writer repository.

The Python module keeps its whole state in module-level globals
(`app_process`, `server_logs`, `console_logs`, `browser`, `page`,
`playwright`).  We model that state as an explicit `ServerState` record and
each tool handler as a pure function on it.  External nondeterminism (the pid
the OS assigns, whether the automation driver raises during browser setup,
whether a click or navigation succeeds in the browser) is passed in as an
explicit parameter; an uncaught Python exception is an `Except.error`.
Queues and the console list are Lean lists with the front as the oldest
element, matching `asyncio.Queue` FIFO order and Python `list.append` /
`list.pop(0)`.
-/

/-- Identity of the supervised child process: the pid and the
exit-code-or-none exposed as `app_process.returncode`. -/
structure ProcessHandle where
  pid : Nat
  returncode : Option Int
deriving Repr, DecidableEq

/-- One structured browser console record, exactly the dict built by the
listeners registered in `setup_browser_console_capture`. -/
structure ConsoleLogEntry where
  level : String
  message : String
  timestamp : String
  url : String
  args : List String
deriving Repr, DecidableEq

/-- The module-level mutable globals of `mcp_server.py`: `app_process`,
`server_logs` (FIFO queue, front = oldest), `console_logs`, and the presence
of the `browser`, `page` and `playwright` handles (each is either an object
or `None` in the source, so presence is a `Bool`).  `relay_tasks` counts the
background `capture_output` tasks created so far (one per spawn in
`start_app`). -/
structure ServerState where
  app_process : Option ProcessHandle
  server_logs : List String
  console_logs : List ConsoleLogEntry
  browser : Bool
  page : Bool
  playwright : Bool
  relay_tasks : Nat
deriving Repr, DecidableEq

/-- The Python test `app_process and app_process.returncode is None`
(`app_process` is `None` or a process object, which is always truthy). -/
def isLive : Option ProcessHandle → Bool
  | some p => p.returncode.isNone
  | none => false

/-- The state at module load: every handle `None`, both log containers
empty, no relay task started. -/
def initialState : ServerState :=
  { app_process := none, server_logs := [], console_logs := [],
    browser := false, page := false, playwright := false, relay_tasks := 0 }

/-- The loop body of `capture_output`: `if line:
server_logs.put(line.decode(utf8).rstrip())` — skip an empty raw line,
otherwise enqueue the decoded, right-stripped line. -/
def relayStep (q : List String) (line : String) : List String :=
  if line != "" then q ++ [line.trimRight] else q

/-- `capture_output(process)`: reads every line of `process.stdout` until
end-of-file, enqueueing `line.decode.rstrip()` for each non-empty raw line,
and only then reads `process.stderr` the same way.  `queue` is the content
of `server_logs` when the task starts; `stdoutLines` / `stderrLines` are the
decoded raw lines of the two pipes in stream order. -/
def capture_output (queue : List String)
    (stdoutLines stderrLines : List String) : List String :=
  let q1 := stdoutLines.foldl relayStep queue
  stderrLines.foldl relayStep q1

/-- The `handle_console_message` listener registered in
`setup_browser_console_capture`: append the entry built from the console
event, then `console_logs.pop(0)` once if the length exceeds 100
("Keep only last 100 logs"). -/
def handle_console_message (logs : List ConsoleLogEntry)
    (level message timestamp url : String) (args : List String) :
    List ConsoleLogEntry :=
  let entry : ConsoleLogEntry :=
    { level := level, message := message, timestamp := timestamp,
      url := url, args := args }
  let logs1 := logs ++ [entry]
  if logs1.length > 100 then logs1.drop 1 else logs1

/-- The `handle_page_error` listener registered in
`setup_browser_console_capture`: appends an entry with level "error" and the
message "Page Error: {error}"; the source performs no capacity check in this
listener. -/
def handle_page_error (logs : List ConsoleLogEntry)
    (error timestamp url : String) : List ConsoleLogEntry :=
  logs ++ [{ level := "error", message := "Page Error: " ++ error,
             timestamp := timestamp, url := url, args := [] }]

/-- One browser-side event delivered to the listeners registered by
`setup_browser_console_capture`: either a console message (carrying the
entry the listener builds from it) or an uncaught page error. -/
inductive BrowserEvent where
  | consoleMsg (e : ConsoleLogEntry)
  | pageError (error timestamp url : String)
deriving Repr, DecidableEq

/-- Dispatch one event to the listener the source registers for it. -/
def recordEvent (logs : List ConsoleLogEntry) : BrowserEvent → List ConsoleLogEntry
  | BrowserEvent.consoleMsg e =>
      handle_console_message logs e.level e.message e.timestamp e.url e.args
  | BrowserEvent.pageError error timestamp url =>
      handle_page_error logs error timestamp url

/-- Run a whole sequence of browser events through the listeners, oldest
event first. -/
def recordEvents (logs : List ConsoleLogEntry) (evs : List BrowserEvent) :
    List ConsoleLogEntry :=
  evs.foldl recordEvent logs

/-- `setup_browser_console_capture()`: starts the automation driver, launches
a headless browser, opens a page, clears `console_logs`, registers the two
listeners and returns `True`.  `driverError = some e` models the driver
raising `e` at the first awaited call (`async_playwright().start()`): the
exception propagates to the caller and no global is mutated.  With
`driverError = none` every awaited step succeeds, so the function can only
return `True`. -/
def setup_browser_console_capture (s : ServerState)
    (driverError : Option String) : Except String (Bool × ServerState) :=
  match driverError with
  | some e => Except.error e
  | none =>
      Except.ok (true,
        { s with playwright := true, browser := true, page := true,
                 console_logs := [] })

/-- `start_app` tool: if `app_process and app_process.returncode is None`,
return "App is already running." with no side effect; otherwise spawn the
child (`newPid` is the pid the OS assigns), start a `capture_output` relay
task, sleep 2 seconds, and run `setup_browser_console_capture` — whose
result selects between the two success messages, and whose exception (not
caught here) propagates. -/
def start_app (s : ServerState) (newPid : Nat) (driverError : Option String) :
    Except String (String × ServerState) :=
  if isLive s.app_process then
    Except.ok ("App is already running.", s)
  else
    let s1 : ServerState :=
      { s with app_process := some { pid := newPid, returncode := none },
               relay_tasks := s.relay_tasks + 1 }
    match setup_browser_console_capture s1 driverError with
    | Except.error e => Except.error e
    | Except.ok (ok, s2) =>
        if ok then
          Except.ok ("App started successfully. Server is running on http://localhost:5001 with browser console capture enabled.", s2)
        else
          Except.ok ("App started successfully. Server is running on http://localhost:5001 (browser console capture failed to initialize).", s2)

/-- The state a successful spawn in `start_app` produces: the new live
handle, one more relay task, a fresh browser session, and the console buffer
cleared by `setup_browser_console_capture`. -/
def startedState (s : ServerState) (newPid : Nat) : ServerState :=
  { s with app_process := some { pid := newPid, returncode := none },
           relay_tasks := s.relay_tasks + 1,
           playwright := true, browser := true, page := true,
           console_logs := [] }

/-- `stop_app` tool: if the process is live, terminate it, await its exit and
set `app_process = None`; then close the browser and stop the driver if
present; finally report success exactly when `app_process is None` at that
point. -/
def stop_app (s : ServerState) : String × ServerState :=
  let s1 := if isLive s.app_process then { s with app_process := none } else s
  let s2 := if s1.browser then { s1 with browser := false } else s1
  let s3 := if s2.playwright then { s2 with playwright := false } else s2
  if s3.app_process.isNone then ("App stopped successfully.", s3)
  else ("App is not running.", s3)

/-- The line `f"[{timestamp}] [{level.upper()}] {message} - {url}"` built by
`get_console_logs` for each entry. -/
def formatLog (log : ConsoleLogEntry) : String :=
  "[" ++ log.timestamp ++ "] [" ++ log.level.toUpper ++ "] " ++
    log.message ++ " - " ++ log.url

/-- `get_console_logs` tool: not-running guard first, then the empty-buffer
message, else the last 20 entries (`console_logs[-20:]`, list order, so
newest last) formatted one per line. -/
def get_console_logs (s : ServerState) : String :=
  if isLive s.app_process = false then
    "App is not running. Start the app first to capture console logs."
  else if s.console_logs.isEmpty then
    "No browser console logs captured yet. Use navigate_to() to visit pages and generate logs."
  else
    String.intercalate "\n"
      ((s.console_logs.drop (s.console_logs.length - 20)).map formatLog)

/-- `get_server_logs` tool: drain the whole queue (loop until
`server_logs.empty()`), then return the last 50 drained lines
(`logs[-50:]`) joined by newlines, or an explanatory message when nothing
was drained. -/
def get_server_logs (s : ServerState) : String × ServerState :=
  let logs := s.server_logs
  let s1 : ServerState := { s with server_logs := [] }
  let msg :=
    if logs.isEmpty then
      if isLive s.app_process then "No new server logs. Server is running."
      else "No server logs. Server is not running."
    else String.intercalate "\n" (logs.drop (logs.length - 50))
  (msg, s1)

/-- `get_app_status` tool. -/
def get_app_status (s : ServerState) : String :=
  match s.app_process with
  | some p =>
      if p.returncode.isNone then
        if s.browser && s.page then
          "App is running (PID: " ++ toString p.pid ++
            "). Browser console capture enabled"
        else
          "App is running (PID: " ++ toString p.pid ++
            "). Browser not initialized"
      else "App is not running"
  | none => "App is not running"

/-- `click_element(selector)` tool: guards first; then `page.click` either
succeeds (`outcome = Except.ok`) or raises (`outcome = Except.error e`,
carrying `str(e)`), and the handler catches every exception and returns the
failure text. -/
def click_element (s : ServerState) (selector : String)
    (outcome : Except String Unit) : String :=
  if isLive s.app_process = false then
    "App is not running. Start the app first."
  else if s.page = false then
    "Browser is not initialized. Restart the app."
  else
    match outcome with
    | Except.ok _ => "Clicked element: " ++ selector
    | Except.error e =>
        "Failed to click element \x27" ++ selector ++ "\x27: " ++ e

/-- `navigate_to(path)` tool: guards first; then `page.goto` either succeeds
or raises, every exception caught and reported as text. -/
def navigate_to (s : ServerState) (path : String)
    (outcome : Except String Unit) : String :=
  if isLive s.app_process = false then
    "App is not running. Start the app first."
  else if s.page = false then
    "Browser is not initialized. Restart the app."
  else
    match outcome with
    | Except.ok _ => "Navigated to http://localhost:5001" ++ path
    | Except.error e => "Failed to navigate: " ++ e

/-- The Output Relay enqueueing lines while the server runs:
`server_logs.put` for each line, in order. -/
def enqueueAll (s : ServerState) (lines : List String) : ServerState :=
  { s with server_logs := s.server_logs ++ lines }

/-- `t` occurs contiguously inside `s`. -/
def containsStr (s t : String) : Prop :=
  ∃ a b : List Char, s.data = a ++ t.data ++ b

/-- The `get_console_logs` behaviour as the spec words it: "if no process is
running, reports that; if the ring buffer is empty, reports no logs yet;
else formats the most recent 20 entries as one line each, newest last."
"Most recent 20, newest last" is written here as: reverse (newest first),
take 20, reverse back. -/
def getConsoleLogsSpec (s : ServerState) : String :=
  if isLive s.app_process = false then
    "App is not running. Start the app first to capture console logs."
  else if s.console_logs = [] then
    "No browser console logs captured yet. Use navigate_to() to visit pages and generate logs."
  else
    String.intercalate "\n"
      (((s.console_logs.reverse.take 20).reverse).map formatLog)

/-- A sample console entry, used to instantiate universally quantified
theorems at concrete inputs. -/
def exEntry : ConsoleLogEntry :=
  { level := "log", message := "hello", timestamp := "2026-10-12 00:00:00",
    url := "http://localhost:5001/", args := [] }

/-- A sample state with a live supervised process and browser session. -/
def exLive : ServerState :=
  { app_process := some { pid := 7, returncode := none },
    server_logs := ["line1", "line2", "line3"],
    console_logs := [exEntry],
    browser := true, page := true, playwright := true, relay_tasks := 1 }

/-- A sample state whose process has exited (stale handle, exit code set). -/
def exDead : ServerState :=
  { app_process := some { pid := 7, returncode := some 0 },
    server_logs := ["old"], console_logs := [],
    browser := true, page := true, playwright := true, relay_tasks := 1 }

/-- C1: start() is idempotent while a process is live: with a live
ProcessHandle it returns "App is already running." and the state — process
handle, relay-task count, browser session, both log containers — is
untouched; and after one successful start from a non-live state the second
start() is exactly such a no-op, leaving the one live process and the one
browser session of the first call. -/
theorem C1_start_idempotent (s : ServerState) (p : Nat) (e : Option String)
    (h : isLive s.app_process = true) :
    start_app s p e = Except.ok ("App is already running.", s) ∧
    ∀ (s0 : ServerState) (p0 q : Nat), isLive s0.app_process = false →
      start_app s0 p0 none =
        Except.ok ("App started successfully. Server is running on http://localhost:5001 with browser console capture enabled.", startedState s0 p0) ∧
      isLive (startedState s0 p0).app_process = true ∧
      (startedState s0 p0).relay_tasks = s0.relay_tasks + 1 ∧
      start_app (startedState s0 p0) q none =
        Except.ok ("App is already running.", startedState s0 p0) := by
  refine ⟨by simp [start_app, h], ?_⟩
  intro s0 p0 q h0
  refine ⟨?_, ?_, ?_, ?_⟩
  · simp [start_app, h0, setup_browser_console_capture, startedState]
  · simp [startedState, isLive]
  · simp [startedState]
  · simp [start_app, startedState, isLive]

/-- Closed instance of C1 at a concrete live state. -/
theorem C1_start_idempotent_witness :
    start_app exLive 9 none = Except.ok ("App is already running.", exLive) :=
  (C1_start_idempotent exLive 9 none (by decide)).1

/-- C2: stop()'s success check happens after the handle is cleared: a live
process is always cleared and reported "App stopped successfully."; whenever
the handle is absent after the attempt the success message is returned; and
the only way to see "App is not running." is a stale handle whose exit code
was already set. -/
theorem C2_check_after_clear (s : ServerState) :
    (isLive s.app_process = true →
      (stop_app s).2.app_process = none ∧
      (stop_app s).1 = "App stopped successfully.") ∧
    ((stop_app s).2.app_process = none →
      (stop_app s).1 = "App stopped successfully.") ∧
    ((stop_app s).1 = "App is not running." →
      ∃ p c, s.app_process = some p ∧ p.returncode = some c) := by
  obtain ⟨ap, sl, cl, br, pg, pw, rt⟩ := s
  cases br <;> cases pw <;>
    rcases ap with _ | ⟨pid, _ | rc⟩ <;>
      simp [stop_app, isLive]

/-- Closed instance of C2 at a concrete live state. -/
theorem C2_check_after_clear_witness :
    (stop_app exLive).2.app_process = none ∧
    (stop_app exLive).1 = "App stopped successfully." :=
  (C2_check_after_clear exLive).1 (by decide)

/-- C6: after stop(), status() reports not-running and the browser handle
and automation driver are released, from every starting state; and stop()
is safe when nothing is running — it still returns normally (the success
message, since the absent handle passes the final check). -/
theorem C6_stop_then_status (s : ServerState) :
    get_app_status (stop_app s).2 = "App is not running" ∧
    (stop_app s).2.browser = false ∧
    (stop_app s).2.playwright = false ∧
    (s.app_process = none → (stop_app s).1 = "App stopped successfully.") := by
  obtain ⟨ap, sl, cl, br, pg, pw, rt⟩ := s
  cases br <;> cases pw <;>
    rcases ap with _ | ⟨pid, _ | rc⟩ <;>
      simp [stop_app, isLive, get_app_status]

/-- Closed instance of C6 at a state with nothing running. -/
theorem C6_stop_then_status_witness :
    get_app_status (stop_app initialState).2 = "App is not running" ∧
    (stop_app initialState).1 = "App stopped successfully." :=
  ⟨(C6_stop_then_status initialState).1,
   (C6_stop_then_status initialState).2.2.2 rfl⟩

/-- The accumulator of `capture_output`: folding one stream extends the
queue with exactly the trimmed non-empty lines of that stream, in order. -/
theorem relay_stream_append (ls : List String) :
    ∀ q : List String,
      ls.foldl relayStep q =
        q ++ (ls.filter (fun l => l != "")).map String.trimRight := by
  induction ls with
  | nil => intro q; simp
  | cons a t ih =>
      intro q
      rw [List.foldl_cons, ih]
      by_cases h : a = ""
      · subst h
        simp [relayStep]
      · simp [relayStep, List.filter_cons, h]

/-- C9: relay ordering — `capture_output` enqueues the whole stdout stream
and only then the stderr stream, so the queue after the relay is the old
queue, then every (non-empty, trimmed) stdout line, then every stderr line:
every stdout line of a run precedes every stderr line of that run in queue
order. -/
theorem C9_relay_stdout_before_stderr (q stdoutLines stderrLines : List String) :
    capture_output q stdoutLines stderrLines =
      q ++ (stdoutLines.filter (fun l => l != "")).map String.trimRight
        ++ (stderrLines.filter (fun l => l != "")).map String.trimRight := by
  simp only [capture_output]
  rw [relay_stream_append, relay_stream_append]

/-- C5: `get_server_logs` is a destructive bounded read: the queue is left
empty, the message is built from at most the 50 most recent drained lines,
and a subsequent call sees only lines enqueued after the first call — no
drained line is ever returned again. -/
theorem C5_server_logs_destructive (s : ServerState) :
    (get_server_logs s).2.server_logs = [] ∧
    (s.server_logs ≠ [] →
      (get_server_logs s).1 =
        String.intercalate "\n"
          (s.server_logs.drop (s.server_logs.length - 50)) ∧
      (s.server_logs.drop (s.server_logs.length - 50)).length ≤ 50) ∧
    (∀ new : List String, new ≠ [] →
      (get_server_logs (enqueueAll (get_server_logs s).2 new)).1 =
        String.intercalate "\n" (new.drop (new.length - 50))) := by
  refine ⟨rfl, ?_, ?_⟩
  · intro h
    constructor
    · simp [get_server_logs, h]
    · rw [List.length_drop]
      omega
  · intro new hnew
    simp [get_server_logs, enqueueAll, hnew]

/-- Closed instance of C5 on a queue with three lines, then one new line. -/
theorem C5_server_logs_destructive_witness :
    (get_server_logs exLive).2.server_logs = [] ∧
    (get_server_logs exLive).1 =
      String.intercalate "\n"
        (exLive.server_logs.drop (exLive.server_logs.length - 50)) ∧
    (get_server_logs (enqueueAll (get_server_logs exLive).2 ["fresh"])).1 =
      String.intercalate "\n" (["fresh"].drop (["fresh"].length - 50)) :=
  ⟨(C5_server_logs_destructive exLive).1,
   ((C5_server_logs_destructive exLive).2.1 (by decide)).1,
   (C5_server_logs_destructive exLive).2.2 ["fresh"] (by decide)⟩

/-- C4 (code bug): `start_app` does not guard the browser setup.  When the
automation driver raises during `setup_browser_console_capture`, the
exception propagates out of `start_app` (an `Except.error`), the degraded
"browser console capture failed to initialize" message being unreachable:
`setup_browser_console_capture` can only return `True` or raise, so no
successful `start_app` ever returns that message. -/
theorem C4_setup_failure_escapes (s : ServerState) (p : Nat) (err : String)
    (h : isLive s.app_process = false) :
    start_app s p (some err) = Except.error err ∧
    (∀ (s1 : ServerState) (r : Bool × ServerState),
      setup_browser_console_capture s1 none = Except.ok r → r.1 = true) ∧
    (∀ (s0 : ServerState) (p0 : Nat) (e0 : Option String)
        (m : String) (st : ServerState),
      start_app s0 p0 e0 = Except.ok (m, st) →
        m ≠ "App started successfully. Server is running on http://localhost:5001 (browser console capture failed to initialize).") := by
  refine ⟨by simp [start_app, h, setup_browser_console_capture], ?_, ?_⟩
  · intro s1 r hr
    simp [setup_browser_console_capture] at hr
    simp [← hr]
  · intro s0 p0 e0 m st hm
    by_cases hl : isLive s0.app_process
    · simp [start_app, hl] at hm
      rw [← hm.1]
      decide
    · cases e0 with
      | some e => simp [start_app, hl, setup_browser_console_capture] at hm
      | none =>
          simp [start_app, hl, setup_browser_console_capture] at hm
          rw [← hm.1]
          decide

/-- Closed instance of C4: from the initial state, a driver failure during
start surfaces as an uncaught exception, not as the degraded message. -/
theorem C4_setup_failure_escapes_witness :
    start_app initialState 7 (some "playwright launch failed") =
      Except.error "playwright launch failed" :=
  (C4_setup_failure_escapes initialState 7 "playwright launch failed"
    (by decide)).1

/-- C7: `get_console_logs` performs exactly the spec's case analysis —
provably equal, on every state, to `getConsoleLogsSpec`, the function read
off the spec's words (not-running message first, then the empty-buffer
message, else the most recent 20 entries formatted newest last); in
particular at the module-load state, before any start, it returns the
not-running message and never an empty formatted list. -/
theorem C7_console_logs_case_analysis (s : ServerState) :
    get_console_logs s = getConsoleLogsSpec s ∧
    get_console_logs initialState =
      "App is not running. Start the app first to capture console logs." := by
  refine ⟨?_, rfl⟩
  unfold get_console_logs getConsoleLogsSpec
  by_cases h : isLive s.app_process = false
  · simp [h]
  · simp only [h, if_false]
    by_cases he : s.console_logs = []
    · simp [he]
    · rw [List.reverse_take]
      simp [he, List.isEmpty_iff]

/-- C8: every failure inside `page.click` is converted by `click_element`
into returned text containing both the literal selector and
"Failed to click"; the handler is a total function, so no exception crosses
the tool boundary. -/
theorem C8_click_failure_text (s : ServerState) (sel err : String)
    (hl : isLive s.app_process = true) (hp : s.page = true) :
    click_element s sel (Except.error err) =
      "Failed to click element \x27" ++ sel ++ "\x27: " ++ err ∧
    containsStr (click_element s sel (Except.error err)) sel ∧
    containsStr (click_element s sel (Except.error err)) "Failed to click" := by
  have hmain : click_element s sel (Except.error err) =
      "Failed to click element \x27" ++ sel ++ "\x27: " ++ err := by
    simp [click_element, hl, hp]
  refine ⟨hmain, ?_, ?_⟩
  · refine ⟨"Failed to click element \x27".data, ("\x27: " ++ err).data, ?_⟩
    rw [hmain]
    simp [String.data_append]
  · refine ⟨[], (" element \x27" ++ sel ++ "\x27: " ++ err).data, ?_⟩
    rw [hmain]
    have hsplit : "Failed to click element \x27".data =
        "Failed to click".data ++ " element \x27".data := by decide
    simp [String.data_append, hsplit]

/-- Closed instance of C8 for the selector of the spec scenario. -/
theorem C8_click_failure_text_witness :
    click_element exLive "#does-not-exist"
        (Except.error "Timeout 30000ms exceeded.") =
      "Failed to click element \x27" ++ "#does-not-exist" ++ "\x27: " ++
        "Timeout 30000ms exceeded." ∧
    containsStr
      (click_element exLive "#does-not-exist"
        (Except.error "Timeout 30000ms exceeded.")) "#does-not-exist" ∧
    containsStr
      (click_element exLive "#does-not-exist"
        (Except.error "Timeout 30000ms exceeded.")) "Failed to click" :=
  C8_click_failure_text exLive "#does-not-exist" "Timeout 30000ms exceeded."
    (by decide) (by decide)

/-- `recordEvent` on a console message, written as append-then-evict on the
whole entry. -/
theorem recordEvent_consoleMsg (logs : List ConsoleLogEntry)
    (e : ConsoleLogEntry) :
    recordEvent logs (BrowserEvent.consoleMsg e) =
      if (logs ++ [e]).length > 100 then (logs ++ [e]).drop 1
      else logs ++ [e] := by
  cases e
  rfl

/-- Folding console messages through the listener, starting from a buffer
within capacity, keeps exactly the last 100 elements of the concatenation:
the ring-buffer discipline of `handle_console_message`. -/
theorem console_fold_drop (es : List ConsoleLogEntry) :
    ∀ logs : List ConsoleLogEntry, logs.length ≤ 100 →
      recordEvents logs (es.map BrowserEvent.consoleMsg) =
        (logs ++ es).drop ((logs ++ es).length - 100) := by
  induction es with
  | nil =>
      intro logs h
      simp [recordEvents, Nat.sub_eq_zero_of_le h]
  | cons e t ih =>
      intro logs h
      have hstep : recordEvents logs ((e :: t).map BrowserEvent.consoleMsg) =
          recordEvents (recordEvent logs (BrowserEvent.consoleMsg e))
            (t.map BrowserEvent.consoleMsg) := rfl
      rw [hstep, recordEvent_consoleMsg]
      by_cases hlen : (logs ++ [e]).length > 100
      · have h100 : logs.length = 100 := by
          simp at hlen
          omega
        rw [if_pos hlen, ih _ (by simp [List.length_drop]; omega)]
        have hsp0 : 1 - (logs ++ [e]).length = 0 := by
          simp
        have hsplit : (logs ++ [e]).drop 1 ++ t = (logs ++ e :: t).drop 1 := by
          have h2 : logs ++ e :: t = (logs ++ [e]) ++ t := by simp
          rw [h2, @List.drop_append_eq_append_drop _ (logs ++ [e]) t 1,
            hsp0, List.drop_zero]
        rw [hsplit, List.drop_drop]
        have hl1 : ((logs ++ e :: t).drop 1).length = 100 + t.length := by
          simp [List.length_drop, h100]
        rw [hl1]
        have harith : 1 + (100 + t.length - 100) =
            (logs ++ e :: t).length - 100 := by
          simp [h100]
          omega
        rw [harith]
      · rw [if_neg hlen, ih _ (by simp at hlen ⊢; omega)]
        simp

/-- Each page-error event grows the buffer by exactly one entry: the
listener has no eviction, so a run of `n` page errors adds `n` entries. -/
theorem pageError_fold_length (er ts u : String) (n : Nat) :
    ∀ l : List ConsoleLogEntry,
      (recordEvents l
        (List.replicate n (BrowserEvent.pageError er ts u))).length =
        l.length + n := by
  induction n with
  | zero =>
      intro l
      simp [recordEvents]
  | succ k ih =>
      intro l
      rw [List.replicate_succ]
      show (recordEvents (recordEvent l (BrowserEvent.pageError er ts u))
        (List.replicate k (BrowserEvent.pageError er ts u))).length =
          l.length + (k + 1)
      rw [ih]
      simp [recordEvent, handle_page_error]
      omega

/-- Counterexample to C3 as stated: 101 page-error events (which
`handle_page_error` appends with no capacity check) leave 101 entries in the
console buffer, exceeding the claimed bound of 100. -/
theorem C3_pageError_overflows :
    100 < (recordEvents []
      (List.replicate 101 (BrowserEvent.pageError "boom" "t" "u"))).length := by
  rw [pageError_fold_length "boom" "t" "u" 101 []]
  decide

/-- C3 (amended): the ring-buffer bound holds for console-message events —
after any sequence of console messages the buffer is exactly the most recent
100 (or all, if fewer), so it never exceeds 100 entries, and once more than
100 were emitted the oldest survivor is the (N-100)th in 0-based position,
i.e. the (N-99)th emitted; page-error events, however, are appended without
the capacity check (see `C3_pageError_overflows`). -/
theorem C3_console_ring_corrected (es : List ConsoleLogEntry) :
    recordEvents [] (es.map BrowserEvent.consoleMsg) =
      es.drop (es.length - 100) ∧
    (recordEvents [] (es.map BrowserEvent.consoleMsg)).length ≤ 100 ∧
    (100 < es.length →
      (recordEvents [] (es.map BrowserEvent.consoleMsg)).head? =
        es[es.length - 100]?) := by
  have h := console_fold_drop es [] (by simp)
  simp only [List.nil_append] at h
  refine ⟨h, ?_, ?_⟩
  · rw [h, List.length_drop]
    omega
  · intro hgt
    rw [h, List.head?_drop]

/-- Closed instance of the amended C3 at 101 console messages. -/
theorem C3_console_ring_corrected_witness :
    recordEvents [] ((List.replicate 101 exEntry).map BrowserEvent.consoleMsg) =
      (List.replicate 101 exEntry).drop
        ((List.replicate 101 exEntry).length - 100) ∧
    (recordEvents []
      ((List.replicate 101 exEntry).map BrowserEvent.consoleMsg)).length ≤ 100 ∧
    (recordEvents []
        ((List.replicate 101 exEntry).map BrowserEvent.consoleMsg)).head? =
      (List.replicate 101 exEntry)[(List.replicate 101 exEntry).length - 100]? :=
  ⟨(C3_console_ring_corrected (List.replicate 101 exEntry)).1,
   (C3_console_ring_corrected (List.replicate 101 exEntry)).2.1,
   (C3_console_ring_corrected (List.replicate 101 exEntry)).2.2 (by simp)⟩

/-- C10: stop() leaves both log containers untouched — the server-log queue
and the console buffer of the post-stop state are those of the pre-stop
state — so lines queued during a run survive a stop()/start() cycle: the
restart (whose setup clears only the console buffer) keeps the queue, and a
later get_server_logs() returns those surviving lines; and no listener event
ever empties the console buffer, so the clearing in
`setup_browser_console_capture` during start() is the only mechanism that
resets it among the modelled operations. -/
theorem C10_stop_log_frame (s : ServerState) (p : Nat) :
    (stop_app s).2.server_logs = s.server_logs ∧
    (stop_app s).2.console_logs = s.console_logs ∧
    (get_server_logs s).2.console_logs = s.console_logs ∧
    start_app (stop_app s).2 p none =
      Except.ok ("App started successfully. Server is running on http://localhost:5001 with browser console capture enabled.",
        startedState (stop_app s).2 p) ∧
    (startedState (stop_app s).2 p).server_logs = s.server_logs ∧
    (startedState (stop_app s).2 p).console_logs = [] ∧
    (s.server_logs ≠ [] →
      (get_server_logs (startedState (stop_app s).2 p)).1 =
        String.intercalate "\n"
          (s.server_logs.drop (s.server_logs.length - 50))) ∧
    (∀ (logs : List ConsoleLogEntry) (ev : BrowserEvent),
      recordEvent logs ev ≠ []) := by
  have hframe : (stop_app s).2.server_logs = s.server_logs ∧
      (stop_app s).2.console_logs = s.console_logs ∧
      isLive (stop_app s).2.app_process = false := by
    obtain ⟨ap, sl, cl, br, pg, pw, rt⟩ := s
    cases br <;> cases pw <;>
      rcases ap with _ | ⟨pid, _ | rc⟩ <;>
        simp [stop_app, isLive]
  have hsl : (startedState (stop_app s).2 p).server_logs = s.server_logs := by
    have h1 : (startedState (stop_app s).2 p).server_logs =
        (stop_app s).2.server_logs := rfl
    rw [h1, hframe.1]
  refine ⟨hframe.1, hframe.2.1, rfl, ?_, hsl, rfl, ?_, ?_⟩
  · simp [start_app, hframe.2.2, setup_browser_console_capture, startedState]
  · intro h
    simp only [get_server_logs]
    rw [hsl]
    simp [List.isEmpty_iff, h]
  · intro logs ev
    cases ev with
    | consoleMsg e =>
        rw [recordEvent_consoleMsg]
        by_cases hl2 : (logs ++ [e]).length > 100
        · rw [if_pos hl2]
          have hpos : 0 < ((logs ++ [e]).drop 1).length := by
            rw [List.length_drop]
            simp at hl2 ⊢
            omega
          exact List.ne_nil_of_length_pos hpos
        · rw [if_neg hl2]
          simp
    | pageError er ts u =>
        simp [recordEvent, handle_page_error]

/-- Closed instance of C10: lines queued in a live state survive the
stop/start cycle and are returned by the next get_server_logs. -/
theorem C10_stop_log_frame_witness :
    (stop_app exLive).2.server_logs = exLive.server_logs ∧
    (get_server_logs (startedState (stop_app exLive).2 9)).1 =
      String.intercalate "\n"
        (exLive.server_logs.drop (exLive.server_logs.length - 50)) ∧
    recordEvent [] (BrowserEvent.pageError "boom" "t" "u") ≠ [] :=
  ⟨(C10_stop_log_frame exLive 9).1,
   (C10_stop_log_frame exLive 9).2.2.2.2.2.2.1 (by decide),
   (C10_stop_log_frame exLive 9).2.2.2.2.2.2.2 []
     (BrowserEvent.pageError "boom" "t" "u")⟩
